import Mathlib

/-!
Shallow embedding of the Orpheus motor-coordination code
(`src/data_taking_scripts/motor.py`) and of the resonant-frequency helper
`DataLogger.flmn` (`src/data_taking_scripts/data_logging.py`).

Python float arithmetic is modelled exactly over `ℚ`; Python 3's built-in
`round` (nearest integer, ties to even) is modelled by `pyRound`; the
transcendental value of `flmn` lives in `ℝ`, while its `math.acos` domain
test is exact over `ℚ`.  Side effects (`move_steps` commands sent over the
dripline interface) are modelled by recording the commands a call issues as
a list of (motor name, signed step count) pairs; the unbounded polling
loops of `wait_for_motor` / `wait_for_motors` are modelled as fuel-indexed
loops over a stream of device-reported status values.
-/

/-- Python 3 `round` to an integer: nearest integer, ties going to even.
The source computes `int(round(steps))`; on a float, `round` already
returns an int, and `int` is the identity there. -/
def pyRound (q : ℚ) : ℤ :=
  if q - ⌊q⌋ < 1/2 then ⌊q⌋
  else if q - ⌊q⌋ > 1/2 then ⌊q⌋ + 1
  else if 2 ∣ ⌊q⌋ then ⌊q⌋ else ⌊q⌋ + 1

namespace Motor

/-- `Motor.wait_for_motor` as a fuel-indexed loop: `stream k` is the status
string `get_status()` reports at poll `k`; the loop exits when the status is
`"R"`, and we return the exit poll index.  `none` means the fuel ran out
with the loop still spinning (each spin sleeps one second in the source;
real time is abstracted to the poll index). -/
def wait_for_motor (stream : ℕ → String) : ℕ → ℕ → Option ℕ
  | 0, _ => none
  | fuel + 1, k => if stream k = "R" then some k else wait_for_motor stream fuel (k + 1)

end Motor

namespace OrpheusMotors

/-- The role names recognised by the `if/elif` chain of
`OrpheusMotors.__init__`; every other role string hits `else: pass`. -/
def isKnownRole (s : String) : Bool :=
  s == "curved_mirror" || s == "bottom_dielectric_plate" || s == "top_dielectric_plate"

/-- `OrpheusMotors.__init__`: iterate over `set(list_of_motors)` (modelled
by `List.dedup`), create a motor object for each recognised role and
silently skip anything else; `self.motor_names` lists the created motors'
names. -/
def motor_names (list_of_motors : List String) : List String :=
  list_of_motors.dedup.filter isKnownRole

/-- `OrpheusMotors.plate_separation`: `length/(num_plates+1)`. -/
def plate_separation (length num_plates : ℚ) : ℚ :=
  length / (num_plates + 1)

/-- `OrpheusMotors.plates_distance_to_steps` with every keyword parameter
explicit (source defaults: `holder_thickness = 1/4`, `lip_thickness = 1/20`,
`pitch = 1/20`, `steps_per_rotation = 20000`). -/
def plates_distance_to_steps_params
    (distance plate_thickness holder_thickness lip_thickness pitch steps_per_rotation : ℚ) : ℤ :=
  let holder_center := holder_thickness / 2
  let plate_center := lip_thickness + plate_thickness / 2
  let gap := plate_center - holder_center
  let actual_distance := distance + gap
  let num_pitch_lengths := actual_distance / pitch
  let steps := steps_per_rotation * num_pitch_lengths
  pyRound steps

/-- `OrpheusMotors.plates_distance_to_steps` at its default keyword
arguments, as `move_by_increment` calls it. -/
def plates_distance_to_steps (distance plate_thickness : ℚ) : ℤ :=
  plates_distance_to_steps_params distance plate_thickness (1/4) (1/20) (1/20) 20000

/-- `OrpheusMotors.curved_mirror_distance_to_steps` with its keyword
parameters explicit (source defaults: `pitch = 1/20`,
`steps_per_rotation = 20000`). -/
def curved_mirror_distance_to_steps_params (distance pitch steps_per_rotation : ℚ) : ℤ :=
  let num_pitch_lengths := distance / pitch
  let steps := steps_per_rotation * num_pitch_lengths
  pyRound steps

/-- `OrpheusMotors.curved_mirror_distance_to_steps` at its default keyword
arguments, as `move_by_increment` calls it. -/
def curved_mirror_distance_to_steps (distance : ℚ) : ℤ :=
  curved_mirror_distance_to_steps_params distance (1/20) 20000

/-- Observable outcome of one `move_by_increment` call: the `move_steps`
commands it issues (motor name paired with the signed step count, in
program order), and the returned pair
`(cavity_length_tracker, new_plate_separation)`. -/
structure MoveResult where
  commands : List (String × ℤ)
  cavity_length_tracker : ℚ
  new_plate_separation : ℚ

/-- `OrpheusMotors.move_by_increment`.  The first argument is
`self.motor_names`; the body mirrors the source: bump the tracker, derive
the new plate separation, then conditionally command each of the three
roles. -/
def move_by_increment (names : List String)
    (increment_distance dielectric_plate_thickness cavity_length_tracker
      num_plates initial_plate_separation : ℚ) : MoveResult :=
  let tracker := cavity_length_tracker + increment_distance
  let new_sep := plate_separation tracker num_plates
  let cm_cmds :=
    if "curved_mirror" ∈ names then
      [("curved_mirror", curved_mirror_distance_to_steps increment_distance)]
    else []
  let bdp_cmds :=
    if "bottom_dielectric_plate" ∈ names then
      let diff := initial_plate_separation + increment_distance
      let move_bottom_plate := diff - new_sep
      [("bottom_dielectric_plate",
        plates_distance_to_steps move_bottom_plate dielectric_plate_thickness)]
    else []
  let tdp_cmds :=
    if "top_dielectric_plate" ∈ names then
      let move_top_plate := new_sep - initial_plate_separation
      [("top_dielectric_plate",
        plates_distance_to_steps move_top_plate dielectric_plate_thickness)]
    else []
  ⟨cm_cmds ++ bdp_cmds ++ tdp_cmds, tracker, new_sep⟩

/-- `OrpheusMotors.wait_for_motors` as a fuel-indexed loop: `statuses k` is
the list `get_motor_status()` reports at poll `k`, and `ready` is
`len(self.motor_names)*['R']`; the loop exits when the two lists are equal,
and we return the exit poll index.  `none` means the fuel ran out with the
loop still spinning. -/
def wait_for_motors (statuses : ℕ → List String) (ready : List String) : ℕ → ℕ → Option ℕ
  | 0, _ => none
  | fuel + 1, k =>
      if statuses k = ready then some k else wait_for_motors statuses ready fuel (k + 1)

end OrpheusMotors

namespace DataLogger

/-- The argument the source passes to `math.acos` inside `flmn`:
`1 - 2*l_in_m/r0_m` with `l_in_m = length/100` and `r0_m = r0/100`. -/
def acosArg (length r0 : ℚ) : ℚ :=
  1 - 2 * (length / 100) / (r0 / 100)

/-- `DataLogger.flmn`, with Python's numeric-domain failures made explicit
as `none`, in the order the source hits them: `v = c/math.sqrt(eps_r)`
fails for `eps_r ≤ 0` (`ValueError` for negative, `ZeroDivisionError` at
zero); the division by `r0_m` fails for `r0 = 0`; `math.acos` fails outside
`[-1, 1]`; the division by `l_in_m` in `n_term` fails for `length = 0`. -/
noncomputable def flmn (l m n : ℤ) (length eps_r r0 : ℚ) : Option ℝ :=
  if eps_r ≤ 0 then none
  else if r0 = 0 then none
  else if ¬ (-1 ≤ acosArg length r0 ∧ acosArg length r0 ≤ 1) then none
  else if length = 0 then none
  else
    let c : ℝ := 299792458
    let v : ℝ := c / Real.sqrt (eps_r : ℝ)
    let sum : ℝ := 1 + (l : ℝ) + (m : ℝ)
    let l_in_m : ℝ := (length : ℝ) / 100
    let arccos_term : ℝ := Real.arccos ((acosArg length r0 : ℚ) : ℝ)
    let n_term : ℝ := (((n : ℝ) + 1) * v / 2) / l_in_m
    let lm_term : ℝ := sum * v / (4 * l_in_m * Real.pi)
    some (n_term + lm_term * arccos_term)

end DataLogger

/-- One element of a sequence of `move_by_increment` calls: every argument
except the threaded `cavity_length_tracker`. -/
structure MoveArgs where
  names : List String
  increment_distance : ℚ
  dielectric_plate_thickness : ℚ
  num_plates : ℚ
  initial_plate_separation : ℚ

/-- Run a sequence of `move_by_increment` calls, threading the first
returned component into the `cavity_length_tracker` argument of the next
call; returns the final tracker value. -/
def runMoves (t0 : ℚ) : List MoveArgs → ℚ
  | [] => t0
  | a :: rest =>
      runMoves
        ((OrpheusMotors.move_by_increment a.names a.increment_distance
            a.dielectric_plate_thickness t0 a.num_plates
            a.initial_plate_separation).cavity_length_tracker)
        rest

theorem mem_ite_singleton {α : Type} {p : Prop} [Decidable p] {x y : α} :
    (x ∈ if p then [y] else []) ↔ p ∧ x = y := by
  split <;> simp_all

theorem mem_motor_names {l : List String} {s : String}
    (h : s ∈ OrpheusMotors.motor_names l) :
    s = "curved_mirror" ∨ s = "bottom_dielectric_plate" ∨ s = "top_dielectric_plate" := by
  have h2 := (List.mem_filter.mp h).2
  simpa [OrpheusMotors.isKnownRole, or_assoc] using h2

/-- Claim C1: `move_by_increment` returns the pair
`(cavity_length_tracker + increment_distance,
(cavity_length_tracker + increment_distance)/(num_plates + 1))`, and
`plate_separation length num_plates = length/(num_plates + 1)` for every
`num_plates > -1`. -/
theorem C1_return_pair (names : List String)
    (increment_distance dielectric_plate_thickness cavity_length_tracker
      num_plates initial_plate_separation : ℚ) :
    (((OrpheusMotors.move_by_increment names increment_distance
          dielectric_plate_thickness cavity_length_tracker num_plates
          initial_plate_separation).cavity_length_tracker,
       (OrpheusMotors.move_by_increment names increment_distance
          dielectric_plate_thickness cavity_length_tracker num_plates
          initial_plate_separation).new_plate_separation)
      = (cavity_length_tracker + increment_distance,
         (cavity_length_tracker + increment_distance) / (num_plates + 1)))
    ∧ ∀ length np : ℚ, np > -1 →
        OrpheusMotors.plate_separation length np = length / (np + 1) :=
  ⟨rfl, fun _ _ _ => rfl⟩

/-- Witness for C1 at `num_plates = 2 > -1`, `length = 6`. -/
theorem C1_return_pair_witness :
    OrpheusMotors.plate_separation 6 2 = 6 / (2 + 1) :=
  (C1_return_pair [] 0 0 0 0 0).2 6 2 (by norm_num)

/-- Claim C10: the pair returned by `move_by_increment` depends only on
`increment_distance`, `cavity_length_tracker` and `num_plates`: two calls
agreeing on those three return equal pairs, whatever the plate thickness,
the initial plate separation and the active motor roles are. -/
theorem C10_return_depends_only_on_three (names names' : List String)
    (inc t n th th' init init' : ℚ) :
    ((OrpheusMotors.move_by_increment names inc th t n init).cavity_length_tracker,
      (OrpheusMotors.move_by_increment names inc th t n init).new_plate_separation)
    = ((OrpheusMotors.move_by_increment names' inc th' t n init').cavity_length_tracker,
      (OrpheusMotors.move_by_increment names' inc th' t n init').new_plate_separation) :=
  rfl

/-- Claim C6: threading the first returned component of `move_by_increment`
into the `cavity_length_tracker` of the next call yields, after any finite
sequence of calls with arbitrary other arguments, the initial value plus
the sum of the increment distances. -/
theorem C6_tracker_running_sum (t0 : ℚ) (calls : List MoveArgs) :
    runMoves t0 calls = t0 + (calls.map MoveArgs.increment_distance).sum := by
  induction calls generalizing t0 with
  | nil => simp [runMoves]
  | cons a rest ih =>
      simp only [runMoves, OrpheusMotors.move_by_increment, List.map_cons, List.sum_cons, ih]
      ring

/-- Counterexample to C3 as stated: the sign of the input distance is not
always preserved.  At `distance = 1/100 > 0` with `plate_thickness = 0`,
the gap term `(1/20 + 0/2) - (1/4)/2 = -3/40` dominates and the result is
`-26000 < 0`. -/
theorem C3_sign_not_preserved :
    (0 : ℚ) < 1/100
    ∧ OrpheusMotors.plates_distance_to_steps (1/100) 0 = -26000 := by
  constructor
  · norm_num
  · norm_num [OrpheusMotors.plates_distance_to_steps,
      OrpheusMotors.plates_distance_to_steps_params, pyRound]

/-- Claim C3 (amended): with the default parameters,
`plates_distance_to_steps distance plate_thickness` equals the Python
round (nearest, ties to even) of `steps_per_rotation * (distance + gap) / pitch`
where `gap = (lip_thickness + plate_thickness/2) - holder_thickness/2`,
and at zero distance it equals `round (steps_per_rotation * gap / pitch)`.
The sign of the result follows `distance + gap`, not `distance` itself. -/
theorem C3_steps_formula (distance plate_thickness : ℚ) :
    OrpheusMotors.plates_distance_to_steps distance plate_thickness
      = pyRound (20000 * (distance + ((1/20 + plate_thickness/2) - (1/4)/2)) / (1/20))
    ∧ OrpheusMotors.plates_distance_to_steps 0 plate_thickness
      = pyRound (20000 * ((1/20 + plate_thickness/2) - (1/4)/2) / (1/20)) := by
  constructor <;>
  · simp only [OrpheusMotors.plates_distance_to_steps,
      OrpheusMotors.plates_distance_to_steps_params]
    congr 1
    ring

/-- Claim C4: with the default parameters,
`curved_mirror_distance_to_steps distance` equals the Python round of
`steps_per_rotation * distance / pitch`, with no gap or offset term; and
when the curved-mirror role is active, `move_by_increment` commands the
curved mirror motor exactly `curved_mirror_distance_to_steps
increment_distance` steps. -/
theorem C4_curved_mirror_steps (distance : ℚ) (names : List String)
    (inc th t n init : ℚ) :
    OrpheusMotors.curved_mirror_distance_to_steps distance
      = pyRound (20000 * distance / (1/20))
    ∧ ("curved_mirror" ∈ names →
        ("curved_mirror", OrpheusMotors.curved_mirror_distance_to_steps inc)
          ∈ (OrpheusMotors.move_by_increment names inc th t n init).commands) := by
  constructor
  · simp only [OrpheusMotors.curved_mirror_distance_to_steps,
      OrpheusMotors.curved_mirror_distance_to_steps_params]
    congr 1
    ring
  · intro h
    simp [OrpheusMotors.move_by_increment, List.mem_append, mem_ite_singleton, h]

/-- Witness for C4: with only the curved mirror active, a unit increment
issues the curved-mirror command. -/
theorem C4_curved_mirror_steps_witness :
    ("curved_mirror", OrpheusMotors.curved_mirror_distance_to_steps 1)
      ∈ (OrpheusMotors.move_by_increment ["curved_mirror"] 1 0 0 0 0).commands :=
  (C4_curved_mirror_steps 0 ["curved_mirror"] 1 0 0 0 0).2 (by decide)

/-- Claim C2: when the bottom-plate role is active, `move_by_increment`
commands the bottom plate motor
`plates_distance_to_steps ((initial_plate_separation + increment_distance)
- new_plate_separation) dielectric_plate_thickness` steps; when the
top-plate role is active it commands the top plate motor
`plates_distance_to_steps (new_plate_separation - initial_plate_separation)
dielectric_plate_thickness` steps; and at the spec's example input
(`increment_distance = 1`, `plate_thickness = 1/10`, tracker `10`,
`num_plates = 2`, `initial_plate_separation = 7/2`) the bottom plate travel
is `(7/2 + 1) - 11/3` and the top plate travel is `11/3 - 7/2`. -/
theorem C2_plate_commands (names : List String) (inc th t n init : ℚ) :
    ("bottom_dielectric_plate" ∈ names →
      ("bottom_dielectric_plate",
        OrpheusMotors.plates_distance_to_steps
          ((init + inc) - OrpheusMotors.plate_separation (t + inc) n) th)
        ∈ (OrpheusMotors.move_by_increment names inc th t n init).commands)
    ∧ ("top_dielectric_plate" ∈ names →
      ("top_dielectric_plate",
        OrpheusMotors.plates_distance_to_steps
          (OrpheusMotors.plate_separation (t + inc) n - init) th)
        ∈ (OrpheusMotors.move_by_increment names inc th t n init).commands)
    ∧ (OrpheusMotors.move_by_increment
        ["curved_mirror", "bottom_dielectric_plate", "top_dielectric_plate"]
        1 (1/10) 10 2 (7/2)).commands
      = [("curved_mirror", OrpheusMotors.curved_mirror_distance_to_steps 1),
         ("bottom_dielectric_plate",
           OrpheusMotors.plates_distance_to_steps ((7/2 + 1) - 11/3) (1/10)),
         ("top_dielectric_plate",
           OrpheusMotors.plates_distance_to_steps (11/3 - 7/2) (1/10))] := by
  refine ⟨fun h => ?_, fun h => ?_, ?_⟩
  · simp [OrpheusMotors.move_by_increment, List.mem_append, mem_ite_singleton, h]
  · simp [OrpheusMotors.move_by_increment, List.mem_append, mem_ite_singleton, h]
  · norm_num [OrpheusMotors.move_by_increment, OrpheusMotors.plate_separation]

/-- Witness for C2: with all three roles active at the spec's example
input, the two plate commands of the claim are issued. -/
theorem C2_plate_commands_witness :
    ("bottom_dielectric_plate",
      OrpheusMotors.plates_distance_to_steps
        (((7:ℚ)/2 + 1) - OrpheusMotors.plate_separation (10 + 1) 2) (1/10))
      ∈ (OrpheusMotors.move_by_increment
          ["curved_mirror", "bottom_dielectric_plate", "top_dielectric_plate"]
          1 (1/10) 10 2 (7/2)).commands
    ∧ ("top_dielectric_plate",
      OrpheusMotors.plates_distance_to_steps
        (OrpheusMotors.plate_separation (10 + 1) 2 - (7:ℚ)/2) (1/10))
      ∈ (OrpheusMotors.move_by_increment
          ["curved_mirror", "bottom_dielectric_plate", "top_dielectric_plate"]
          1 (1/10) 10 2 (7/2)).commands :=
  ⟨(C2_plate_commands
      ["curved_mirror", "bottom_dielectric_plate", "top_dielectric_plate"]
      1 (1/10) 10 2 (7/2)).1 (by decide),
   (C2_plate_commands
      ["curved_mirror", "bottom_dielectric_plate", "top_dielectric_plate"]
      1 (1/10) 10 2 (7/2)).2.1 (by decide)⟩

/-- Claim C7: `OrpheusMotors` construction silently ignores every role
string other than the three known ones: construction is total (no error),
every created motor name satisfies `isKnownRole`, and the
`resonator_coupling` role of `TestMotor` is never instantiated. -/
theorem C7_unknown_roles_ignored (list_of_motors : List String) :
    (OrpheusMotors.motor_names list_of_motors).all OrpheusMotors.isKnownRole = true
    ∧ (OrpheusMotors.motor_names list_of_motors).contains "resonator_coupling" = false := by
  constructor
  · rw [List.all_eq_true]
    intro x hx
    exact (List.mem_filter.mp hx).2
  · rw [Bool.eq_false_iff]
    intro hc
    have hmem : "resonator_coupling" ∈ OrpheusMotors.motor_names list_of_motors := by
      simpa using hc
    rcases mem_motor_names hmem with h | h | h <;> simp at h

/-- Claim C8: during `move_by_increment`, a `move_steps` command is issued
to a role name iff that role name is in the coordinator's `motor_names`. -/
theorem C8_command_iff_active (list_of_motors : List String)
    (inc th t n init : ℚ) (role : String) :
    (∃ steps, (role, steps)
        ∈ (OrpheusMotors.move_by_increment (OrpheusMotors.motor_names list_of_motors)
            inc th t n init).commands)
    ↔ role ∈ OrpheusMotors.motor_names list_of_motors := by
  constructor
  · rintro ⟨steps, hmem⟩
    simp only [OrpheusMotors.move_by_increment, List.mem_append,
      mem_ite_singleton, Prod.mk.injEq] at hmem
    rcases hmem with (⟨hin, hr, -⟩ | ⟨hin, hr, -⟩) | ⟨hin, hr, -⟩ <;>
      exact hr ▸ hin
  · intro hrole
    rcases mem_motor_names hrole with h | h | h <;> subst h
    · exact ⟨OrpheusMotors.curved_mirror_distance_to_steps inc,
        by simp [OrpheusMotors.move_by_increment, List.mem_append, mem_ite_singleton, hrole]⟩
    · exact ⟨OrpheusMotors.plates_distance_to_steps
          ((init + inc) - OrpheusMotors.plate_separation (t + inc) n) th,
        by simp [OrpheusMotors.move_by_increment, List.mem_append, mem_ite_singleton, hrole]⟩
    · exact ⟨OrpheusMotors.plates_distance_to_steps
          (OrpheusMotors.plate_separation (t + inc) n - init) th,
        by simp [OrpheusMotors.move_by_increment, List.mem_append, mem_ite_singleton, hrole]⟩

/-- Claim C9: `wait_for_motor` never returns while the reported status
differs from `"R"` (if it exits, the status at the exit poll is `"R"`, and
on a stream that is never `"R"` it never returns, whatever the fuel), and
`wait_for_motors` never returns while the reported status list differs from
`len(motor_names)*['R']` (same two statements); neither loop has a
timeout. -/
theorem C9_wait_loops (stream : ℕ → String) (statuses : ℕ → List String)
    (numMotors : ℕ) :
    ((∀ k, stream k ≠ "R") → ∀ fuel k, Motor.wait_for_motor stream fuel k = none)
    ∧ (∀ fuel k j, Motor.wait_for_motor stream fuel k = some j → stream j = "R")
    ∧ ((∀ k, statuses k ≠ List.replicate numMotors "R") →
        ∀ fuel k, OrpheusMotors.wait_for_motors statuses
          (List.replicate numMotors "R") fuel k = none)
    ∧ (∀ fuel k j, OrpheusMotors.wait_for_motors statuses
          (List.replicate numMotors "R") fuel k = some j →
        statuses j = List.replicate numMotors "R") := by
  refine ⟨fun hne fuel => ?_, fun fuel => ?_, fun hne fuel => ?_, fun fuel => ?_⟩
  · induction fuel with
    | zero => intro k; rfl
    | succ f ih =>
        intro k
        rw [Motor.wait_for_motor, if_neg (hne k)]
        exact ih (k + 1)
  · induction fuel with
    | zero => intro k j h; exact absurd h (by simp [Motor.wait_for_motor])
    | succ f ih =>
        intro k j h
        rw [Motor.wait_for_motor] at h
        by_cases hk : stream k = "R"
        · rw [if_pos hk] at h
          obtain rfl : k = j := Option.some.inj h
          exact hk
        · rw [if_neg hk] at h
          exact ih (k + 1) j h
  · induction fuel with
    | zero => intro k; rfl
    | succ f ih =>
        intro k
        rw [OrpheusMotors.wait_for_motors, if_neg (hne k)]
        exact ih (k + 1)
  · induction fuel with
    | zero => intro k j h; exact absurd h (by simp [OrpheusMotors.wait_for_motors])
    | succ f ih =>
        intro k j h
        rw [OrpheusMotors.wait_for_motors] at h
        by_cases hk : statuses k = List.replicate numMotors "R"
        · rw [if_pos hk] at h
          obtain rfl : k = j := Option.some.inj h
          exact hk
        · rw [if_neg hk] at h
          exact ih (k + 1) j h

/-- Witness for C9: on the constant status stream `"M"` (never `"R"`),
neither loop returns within three polls. -/
theorem C9_wait_loops_witness :
    Motor.wait_for_motor (fun _ => "M") 3 0 = none
    ∧ OrpheusMotors.wait_for_motors (fun _ => ["M"]) (List.replicate 1 "R") 3 0 = none :=
  ⟨(C9_wait_loops (fun _ => "M") (fun _ => ["M"]) 1).1 (fun _ => by decide) 3 0,
   (C9_wait_loops (fun _ => "M") (fun _ => ["M"]) 1).2.2.1 (fun _ => by decide) 3 0⟩

/-- Counterexample to C5 as stated: the claim says `flmn` fails with a
numeric-domain error exactly when `0 ≤ 1 - 2*(length/100)/(r0/100) ≤ 1` is
violated, yet at its own example input `(0, 0, 0, 33, 1, 33)` the `acos`
argument is `-1`, which violates `0 ≤ arg`, and `flmn` nevertheless
succeeds (the true `math.acos` domain is `[-1, 1]`). -/
theorem C5_domain_counterexample :
    DataLogger.acosArg 33 33 = -1
    ∧ ¬ (0 ≤ DataLogger.acosArg 33 33)
    ∧ (DataLogger.flmn 0 0 0 33 1 33).isSome = true := by
  refine ⟨by norm_num [DataLogger.acosArg], by norm_num [DataLogger.acosArg], ?_⟩
  rw [DataLogger.flmn, if_neg (by norm_num), if_neg (by norm_num),
    if_neg (by norm_num [DataLogger.acosArg]), if_neg (by norm_num)]
  rfl

/-- Claim C5 (amended): given `eps_r > 0`, `length ≠ 0` and `r0 ≠ 0` (so
that the square-root and division domain failures cannot fire), `flmn`
fails exactly when `-1 ≤ 1 - 2*(length/100)/(r0/100) ≤ 1` is violated —
the `math.acos` domain is `[-1, 1]`, not `[0, 1]` — and otherwise returns
`n_term + lm_term * arccos_term` with `v = c/sqrt(eps_r)`,
`n_term = ((n+1)*v/2)/(length/100)`,
`lm_term = (1+l+m)*v/(4*(length/100)*pi)` and
`arccos_term = acos(1 - 2*(length/100)/(r0/100))`; at the example input
`length = r0 = 33` the arccos term is `acos(-1) = π`, so the call
succeeds. -/
theorem C5_flmn_domain (l m n : ℤ) (length eps_r r0 : ℚ)
    (heps : 0 < eps_r) (hlen : length ≠ 0) (hr0 : r0 ≠ 0) :
    ((DataLogger.flmn l m n length eps_r r0 = none)
        ↔ ¬ (-1 ≤ DataLogger.acosArg length r0 ∧ DataLogger.acosArg length r0 ≤ 1))
    ∧ ((-1 ≤ DataLogger.acosArg length r0 ∧ DataLogger.acosArg length r0 ≤ 1) →
        DataLogger.flmn l m n length eps_r r0
          = some ((((n : ℝ) + 1) * (299792458 / Real.sqrt (eps_r : ℝ)) / 2)
                / ((length : ℝ) / 100)
              + (1 + (l : ℝ) + (m : ℝ)) * (299792458 / Real.sqrt (eps_r : ℝ))
                / (4 * ((length : ℝ) / 100) * Real.pi)
                * Real.arccos (1 - 2 * ((length : ℝ) / 100) / ((r0 : ℝ) / 100))))
    ∧ Real.arccos ((DataLogger.acosArg 33 33 : ℚ) : ℝ) = Real.pi := by
  have hcast : ((DataLogger.acosArg length r0 : ℚ) : ℝ)
      = 1 - 2 * ((length : ℝ) / 100) / ((r0 : ℝ) / 100) := by
    rw [DataLogger.acosArg]
    push_cast
    ring
  refine ⟨?_, ?_, ?_⟩
  · rw [DataLogger.flmn, if_neg (not_le.mpr heps), if_neg hr0]
    by_cases hdom : -1 ≤ DataLogger.acosArg length r0 ∧ DataLogger.acosArg length r0 ≤ 1
    · rw [if_neg (not_not.mpr hdom), if_neg hlen]
      simp [hdom]
    · rw [if_pos hdom]
      simp [hdom]
  · intro hdom
    rw [DataLogger.flmn, if_neg (not_le.mpr heps), if_neg hr0,
      if_neg (not_not.mpr hdom), if_neg hlen, hcast]
  · have h33 : DataLogger.acosArg 33 33 = -1 := by norm_num [DataLogger.acosArg]
    rw [h33]
    push_cast
    exact Real.arccos_neg_one

/-- Witness for C5 (amended), applied at the example input
`(l, m, n, length, eps_r, r0) = (0, 0, 0, 33, 1, 33)`: the arccos term at
`length = r0 = 33` is `π`. -/
theorem C5_flmn_domain_witness :
    Real.arccos ((DataLogger.acosArg 33 33 : ℚ) : ℝ) = Real.pi :=
  (C5_flmn_domain 0 0 0 33 1 33 (by norm_num) (by norm_num) (by norm_num)).2.2
